import Mathlib

/-! dnswatcher: the entry point `main` (src/main/main.go)

The entry point is pure wiring: it reads `config.yml`, checks that at least one
DNS server is configured, and then calls the collaborators `InitGeoIP`,
`InitCollect`, `StartCollect`, `CloseGeoIP` and `AnalyzeData` in sequence.

The embedding is a trace semantics.  Everything `main` does to the outside
world (lines printed, collaborator calls with their arguments, the deferred
close of the configuration file) is recorded as an `Event`; everything the
outside world answers (the result of opening and decoding the file and the
return values of the collaborators) is supplied by a `World`.  The
collaborators live in packages that are not part of the source tree, so their
return values are arbitrary functions of their arguments.
-/

namespace DnsWatcher

/-! ## Data model (main.go, lines 13-41) -/

/-- Field `runargs` of `Config` (main.go, lines 16-24). Go `int` is `Int`. -/
structure RunArguments where
  InputFilepath : String
  DontProbeFilepath : String
  Verbose : Bool
  Concurrency : Int
  DropDatabase : Bool
  Debug : Bool
  DnsServers : List String
deriving DecidableEq, Repr

/-- Field `database` of `Config` (main.go, lines 25-31). -/
structure Database where
  DatabaseName : String
  Username : String
  Password : String
  Host : String
  Port : Int
deriving DecidableEq, Repr

/-- Field `geoip` of `Config` (main.go, lines 32-37). -/
structure Geoip where
  GeoipPath : String
  GeoipAsnFilename : String
  GeoipCountryFilename : String
  GeoipLicenseKey : String
deriving DecidableEq, Repr

/-- The configuration file's structure (main.go, lines 15-38). -/
structure Config where
  RunArguments : RunArguments
  Database : Database
  Geoip : Geoip
deriving DecidableEq, Repr

/-- The name of the configuration file loaded at startup (main.go, line 41). -/
def CONFIG_FILE : String := "config.yml"

/-- An open file, as returned by `os.Open`: an identifier of the descriptor. -/
abbrev File := Nat

/-- The handle returned by `geoIPUtils.InitGeoIP`; its type is declared in the
`geoIPUtils` package, here an identifier of the handle. -/
abbrev GeoipDB := Nat

/-- The run identifier returned by `dataCollector.StartCollect`. -/
abbrev RunId := Int

/-! ## Events and the world -/

/-- One externally visible action of `main`. The arguments of each collaborator
call are listed in the order of the Go call. -/
inductive Event where
  /-- A line written by `fmt.Println`. -/
  | println (line : String)
  /-- The deferred `f.Close()` of the configuration file (line 54). -/
  | closeFile (f : File)
  /-- The call `geoIPUtils.InitGeoIP(path, countryFilename, asnFilename, licenseKey)`. -/
  | initGeoIP (geoipPath geoipCountryFilename geoipAsnFilename geoipLicenseKey : String)
  /-- The call `dataCollector.InitCollect(...)` (line 73). -/
  | initCollect (dontProbeFilepath : String) (dropDatabase : Bool)
      (username password host : String) (port : Int) (databaseName : String)
      (geoipDB : GeoipDB) (dnsServers : List String)
  /-- The call `dataCollector.StartCollect(...)` (line 80). -/
  | startCollect (inputFilepath : String) (concurrency : Int)
      (databaseName username password host : String) (port : Int)
      (debug verbose : Bool)
  /-- The call `geoIPUtils.CloseGeoIP(geoipDB)` (line 82). -/
  | closeGeoIP (geoipDB : GeoipDB)
  /-- The call `dataAnalyzer.AnalyzeData(runId, ...)` (line 85). -/
  | analyzeData (runId : RunId) (databaseName username password host : String)
      (port : Int)
deriving DecidableEq, Repr

/-- The answers of the outside world to `main`: the result of `os.Open`, of the
YAML decoder, and the return values of the collaborators that return one.
An `error` is its message; `none` is the nil error. -/
structure World where
  /-- The result of `os.Open(name)`: a file, or the error. -/
  Open : String → Except String File
  /-- The result of `yaml.NewDecoder(f).Decode(&cfg)`: the decoded configuration, or the error. -/
  Decode : File → Except String Config
  /-- The return value of `geoIPUtils.InitGeoIP`. -/
  InitGeoIP : String → String → String → String → GeoipDB
  /-- The return value of `dataCollector.InitCollect`: nil or an error. -/
  InitCollect : String → Bool → String → String → String → Int → String →
    GeoipDB → List String → Option String
  /-- The return value of `dataCollector.StartCollect`: the run identifier. -/
  StartCollect : String → Int → String → String → String → String → Int →
    Bool → Bool → RunId

/-- What an execution of `main` leaves behind: the events in the order they
happened, and the value of the local variable `runId` (line 80), `none` when the
execution never assigned it. -/
structure MainResult where
  trace : List Event
  runId : Option RunId
deriving DecidableEq, Repr

/-- The effect of `defer f.Close()` (line 54): the file is closed when the
rest of `main` has returned. -/
def deferClose (f : File) (rest : MainResult) : MainResult :=
  { trace := rest.trace ++ [Event.closeFile f], runId := rest.runId }

/-- The body of `main` from line 63 on, once the configuration is decoded. -/
def mainWithConfig (w : World) (cfg : Config) : MainResult :=
  -- Check if a DNS server is set in the config file
  if cfg.RunArguments.DnsServers.length = 0 then
    { trace := [Event.println "you must add at least one dns server in the config file."],
      runId := none }
  else
    -- Initialize GeoIP databases
    let geoipDB := w.InitGeoIP cfg.Geoip.GeoipPath cfg.Geoip.GeoipCountryFilename
      cfg.Geoip.GeoipAsnFilename cfg.Geoip.GeoipLicenseKey
    let e1 := Event.initGeoIP cfg.Geoip.GeoipPath cfg.Geoip.GeoipCountryFilename
      cfg.Geoip.GeoipAsnFilename cfg.Geoip.GeoipLicenseKey
    -- Initialize data collection
    let e2 := Event.initCollect cfg.RunArguments.DontProbeFilepath
      cfg.RunArguments.DropDatabase cfg.Database.Username cfg.Database.Password
      cfg.Database.Host cfg.Database.Port cfg.Database.DatabaseName geoipDB
      cfg.RunArguments.DnsServers
    match w.InitCollect cfg.RunArguments.DontProbeFilepath
      cfg.RunArguments.DropDatabase cfg.Database.Username cfg.Database.Password
      cfg.Database.Host cfg.Database.Port cfg.Database.DatabaseName geoipDB
      cfg.RunArguments.DnsServers with
    | some err => { trace := [e1, e2, Event.println err], runId := none }
    | none =>
      -- Start data collection
      let runId := w.StartCollect cfg.RunArguments.InputFilepath
        cfg.RunArguments.Concurrency cfg.Database.DatabaseName cfg.Database.Username
        cfg.Database.Password cfg.Database.Host cfg.Database.Port
        cfg.RunArguments.Debug cfg.RunArguments.Verbose
      let e3 := Event.startCollect cfg.RunArguments.InputFilepath
        cfg.RunArguments.Concurrency cfg.Database.DatabaseName cfg.Database.Username
        cfg.Database.Password cfg.Database.Host cfg.Database.Port
        cfg.RunArguments.Debug cfg.RunArguments.Verbose
      { trace := [e1, e2, e3, Event.closeGeoIP geoipDB,
          -- Analyze collected data
          Event.println "Analyzing Data...",
          Event.analyzeData runId cfg.Database.DatabaseName cfg.Database.Username
            cfg.Database.Password cfg.Database.Host cfg.Database.Port],
        runId := some runId }

/-- The entry point `main` (main.go, lines 46-87). -/
def main (w : World) : MainResult :=
  -- Read config file
  match w.Open CONFIG_FILE with
  | Except.error err =>
    { trace := [Event.println ("Can't open configuration file: " ++ err)], runId := none }
  | Except.ok f =>
    deferClose f
      (match w.Decode f with
       | Except.error err =>
         { trace := [Event.println ("Can't decode configuration: " ++ err)], runId := none }
       | Except.ok cfg => mainWithConfig w cfg)

/-! ## Observations on a trace -/

/-- Whether the event is a call of one of the five collaborators. -/
def Event.isCall : Event → Bool
  | Event.println _ => false
  | Event.closeFile _ => false
  | _ => true

/-- The collaborator calls of a trace, in order. -/
def calls (t : List Event) : List Event := t.filter Event.isCall

/-- The line printed by the event, if it is a `fmt.Println`. -/
def Event.line? : Event → Option String
  | Event.println s => some s
  | _ => none

/-- The lines printed in a trace, in order. -/
def printed (t : List Event) : List String := t.filterMap Event.line?

/-- Whether the event is a call of `StartCollect`. -/
def Event.isStartCollect : Event → Bool
  | Event.startCollect .. => true
  | _ => false

/-- Whether the event is a call of `CloseGeoIP`. -/
def Event.isCloseGeoIP : Event → Bool
  | Event.closeGeoIP _ => true
  | _ => false

/-- Whether the event is a call of `AnalyzeData`. -/
def Event.isAnalyzeData : Event → Bool
  | Event.analyzeData .. => true
  | _ => false

/-- The names of the collaborators. -/
inductive Collaborator where
  | InitGeoIP | InitCollect | StartCollect | CloseGeoIP | AnalyzeData
deriving DecidableEq, Repr

/-- The collaborator an event is a call of, if any. -/
def Event.collaborator? : Event → Option Collaborator
  | Event.println _ => none
  | Event.closeFile _ => none
  | Event.initGeoIP .. => some Collaborator.InitGeoIP
  | Event.initCollect .. => some Collaborator.InitCollect
  | Event.startCollect .. => some Collaborator.StartCollect
  | Event.closeGeoIP _ => some Collaborator.CloseGeoIP
  | Event.analyzeData .. => some Collaborator.AnalyzeData

/-! ## Concrete worlds -/

/-- A configuration with two DNS servers and concurrency 2. -/
def sampleConfig : Config :=
  { RunArguments :=
      { InputFilepath := "input.csv", DontProbeFilepath := "dontprobe.txt",
        Verbose := false, Concurrency := 2, DropDatabase := false, Debug := true,
        DnsServers := ["8.8.8.8", "1.1.1.1"] },
    Database :=
      { DatabaseName := "observatorio", Username := "obs", Password := "secret",
        Host := "localhost", Port := 5432 },
    Geoip :=
      { GeoipPath := "Geolite", GeoipAsnFilename := "GeoLite2-ASN.mmdb",
        GeoipCountryFilename := "GeoLite2-Country.mmdb", GeoipLicenseKey := "key" } }

/-- A world in which everything succeeds: the file opens as descriptor 3 and
decodes to `sampleConfig`, the GeoIP handle is 1 and the run identifier is 42. -/
def sampleWorld : World :=
  { Open := fun _ => Except.ok 3,
    Decode := fun _ => Except.ok sampleConfig,
    InitGeoIP := fun _ _ _ _ => 1,
    InitCollect := fun _ _ _ _ _ _ _ _ _ => none,
    StartCollect := fun _ _ _ _ _ _ _ _ _ => 42 }

/-- A world in which the configuration file cannot be opened. -/
def worldNoFile : World :=
  { sampleWorld with Open := fun _ => Except.error "open config.yml: no such file or directory" }

/-- A world in which the configuration file opens but is not valid YAML. -/
def worldBadYaml : World :=
  { sampleWorld with Decode := fun _ => Except.error "yaml: line 1: did not find expected key" }

/-- The sample configuration without any DNS server. -/
def configNoDns : Config :=
  { sampleConfig with RunArguments := { sampleConfig.RunArguments with DnsServers := [] } }

/-- A world whose configuration lists no DNS server. -/
def worldNoDns : World :=
  { sampleWorld with Decode := fun _ => Except.ok configNoDns }

/-- A world in which `InitCollect` fails. -/
def worldInitCollectFails : World :=
  { sampleWorld with
    InitCollect := fun _ _ _ _ _ _ _ _ _ => some "open dontprobe.txt: permission denied" }

/-- The sample configuration with concurrency 0. -/
def configZeroConcurrency : Config :=
  { sampleConfig with RunArguments := { sampleConfig.RunArguments with Concurrency := 0 } }

/-- A world whose configuration has concurrency 0 and in which everything
else succeeds. -/
def worldZeroConcurrency : World :=
  { sampleWorld with Decode := fun _ => Except.ok configZeroConcurrency }

/-! ## The collection pipeline as the specification describes it

The collection code itself (package `dataCollector`) is not part of the source
tree; `main` only passes it the exclusion-list path, the DNS servers and the
input path.  The definitions of this section follow sections 3 and 4 of the
specification. -/

/-- Modelled from the spec: the outcome kinds of one probe (section 4.4), which
the absent package `dataCollector` would classify. -/
inductive Outcome where
  | resolved (addresses : List String)
  | nxdomain
  | timeout
  | serverError
  | malformedResponse
deriving DecidableEq, Repr

/-- Modelled from the spec: the `ProbeResult` of section 3 of the absent
collection core, with the fields that identify it (run, target, server) and its
outcome; round-trip duration and timestamp are left out. -/
structure ProbeResult where
  runId : RunId
  target : String
  server : String
  outcome : Outcome
deriving DecidableEq, Repr

/-- Modelled from the spec: `load(path)` of the Exclusion Filter (section 4.1),
absent from the source tree. `readFile path` is the list of targets in the file,
or `none` when it cannot be read. An unreadable file is the empty set when the
path is optional and a `LoadError` otherwise. -/
def ExclusionFilter.load (readFile : String → Option (List String)) (optional : Bool)
    (path : String) : Except String (List String) :=
  match readFile path with
  | some targets => Except.ok targets
  | none => if optional then Except.ok [] else Except.error "LoadError"

/-- Modelled from the spec: `isExcluded(target)` of the Exclusion Filter
(section 4.1), absent from the source tree: the membership test on the loaded set. -/
def ExclusionFilter.isExcluded (excluded : List String) (target : String) : Bool :=
  excluded.contains target

/-- Modelled from the spec: the Target Source (section 4.2), absent from the
source tree: the targets of the input list, without the malformed lines and
without the targets the Exclusion Filter rejects. -/
def TargetSource.targets (wellFormed : String → Bool) (excluded : List String)
    (lines : List String) : List String :=
  lines.filter (fun l => wellFormed l && !ExclusionFilter.isExcluded excluded l)

/-- Modelled from the spec: `probe(target, servers, timeout)` of the Probe
Worker (section 4.4), absent from the source tree: one `ProbeResult` per server,
in server-list order; `query target server` is the classified outcome. -/
def ProbeWorker.probe (query : String → String → Outcome) (runId : RunId)
    (target : String) (servers : List String) : List ProbeResult :=
  servers.map (fun s =>
    { runId := runId, target := target, server := s, outcome := query target s })

/-- Modelled from the spec: the results a run produces (sections 4.5 and 4.7),
by the absent Worker Pool: every target of the Target Source is probed against
every server. Only the set of results is meant, the order across targets is
not guaranteed. -/
def producedResults (wellFormed : String → Bool) (excluded : List String)
    (lines : List String) (query : String → String → Outcome) (runId : RunId)
    (servers : List String) : List ProbeResult :=
  (TargetSource.targets wellFormed excluded lines).flatMap
    (fun t => ProbeWorker.probe query runId t servers)

/-- Modelled from the spec: one run of the absent collection core as far as
exclusion is concerned: the exclusion list is loaded from the configured path
first (a `LoadError` aborts the run before any probing, section 4.1), then the
targets of the input list are probed. -/
def collectRun (readFile : String → Option (List String)) (optional : Bool)
    (dontProbeFilepath : String) (wellFormed : String → Bool) (lines : List String)
    (query : String → String → Outcome) (runId : RunId) (servers : List String) :
    Except String (List ProbeResult) :=
  match ExclusionFilter.load readFile optional dontProbeFilepath with
  | Except.error err => Except.error err
  | Except.ok excluded =>
    Except.ok (producedResults wellFormed excluded lines query runId servers)

/-- An outcome oracle for examples: every query resolves to one address. -/
def sampleQuery (_target _server : String) : Outcome :=
  Outcome.resolved ["192.0.2.1"]

/-- A file system for examples: the exclusion list holds `a.example`. -/
def sampleReadFile (path : String) : Option (List String) :=
  if path = "dontprobe.txt" then some ["a.example"] else none

/-! ## The five ways `main` can run -/

/-- The trace of `main` when the configuration file cannot be opened. -/
theorem main_open_error (w : World) (err : String)
    (hopen : w.Open CONFIG_FILE = Except.error err) :
    main w =
      { trace := [Event.println ("Can't open configuration file: " ++ err)],
        runId := none } := by
  simp [main, hopen]

/-- The trace of `main` when the configuration cannot be decoded. -/
theorem main_decode_error (w : World) (f : File) (err : String)
    (hopen : w.Open CONFIG_FILE = Except.ok f)
    (hdec : w.Decode f = Except.error err) :
    main w =
      { trace := [Event.println ("Can't decode configuration: " ++ err),
          Event.closeFile f],
        runId := none } := by
  simp [main, hopen, hdec, deferClose]

/-- The trace of `main` when the configuration lists no DNS server. -/
theorem main_no_dns (w : World) (f : File) (cfg : Config)
    (hopen : w.Open CONFIG_FILE = Except.ok f)
    (hdec : w.Decode f = Except.ok cfg)
    (hdns : cfg.RunArguments.DnsServers = []) :
    main w =
      { trace := [Event.println "you must add at least one dns server in the config file.",
          Event.closeFile f],
        runId := none } := by
  simp [main, hopen, hdec, deferClose, mainWithConfig, hdns]

/-- The trace of `main` when `InitCollect` returns an error. -/
theorem main_initCollect_error (w : World) (f : File) (cfg : Config) (err : String)
    (hopen : w.Open CONFIG_FILE = Except.ok f)
    (hdec : w.Decode f = Except.ok cfg)
    (hdns : cfg.RunArguments.DnsServers ≠ [])
    (hinit : w.InitCollect cfg.RunArguments.DontProbeFilepath
      cfg.RunArguments.DropDatabase cfg.Database.Username cfg.Database.Password
      cfg.Database.Host cfg.Database.Port cfg.Database.DatabaseName
      (w.InitGeoIP cfg.Geoip.GeoipPath cfg.Geoip.GeoipCountryFilename
        cfg.Geoip.GeoipAsnFilename cfg.Geoip.GeoipLicenseKey)
      cfg.RunArguments.DnsServers = some err) :
    main w =
      { trace := [
          Event.initGeoIP cfg.Geoip.GeoipPath cfg.Geoip.GeoipCountryFilename
            cfg.Geoip.GeoipAsnFilename cfg.Geoip.GeoipLicenseKey,
          Event.initCollect cfg.RunArguments.DontProbeFilepath
            cfg.RunArguments.DropDatabase cfg.Database.Username cfg.Database.Password
            cfg.Database.Host cfg.Database.Port cfg.Database.DatabaseName
            (w.InitGeoIP cfg.Geoip.GeoipPath cfg.Geoip.GeoipCountryFilename
              cfg.Geoip.GeoipAsnFilename cfg.Geoip.GeoipLicenseKey)
            cfg.RunArguments.DnsServers,
          Event.println err,
          Event.closeFile f],
        runId := none } := by
  simp [main, hopen, hdec, deferClose, mainWithConfig, hdns, hinit]

/-- The trace of `main` when nothing fails. -/
theorem main_success (w : World) (f : File) (cfg : Config)
    (hopen : w.Open CONFIG_FILE = Except.ok f)
    (hdec : w.Decode f = Except.ok cfg)
    (hdns : cfg.RunArguments.DnsServers ≠ [])
    (hinit : w.InitCollect cfg.RunArguments.DontProbeFilepath
      cfg.RunArguments.DropDatabase cfg.Database.Username cfg.Database.Password
      cfg.Database.Host cfg.Database.Port cfg.Database.DatabaseName
      (w.InitGeoIP cfg.Geoip.GeoipPath cfg.Geoip.GeoipCountryFilename
        cfg.Geoip.GeoipAsnFilename cfg.Geoip.GeoipLicenseKey)
      cfg.RunArguments.DnsServers = none) :
    main w =
      { trace := [
          Event.initGeoIP cfg.Geoip.GeoipPath cfg.Geoip.GeoipCountryFilename
            cfg.Geoip.GeoipAsnFilename cfg.Geoip.GeoipLicenseKey,
          Event.initCollect cfg.RunArguments.DontProbeFilepath
            cfg.RunArguments.DropDatabase cfg.Database.Username cfg.Database.Password
            cfg.Database.Host cfg.Database.Port cfg.Database.DatabaseName
            (w.InitGeoIP cfg.Geoip.GeoipPath cfg.Geoip.GeoipCountryFilename
              cfg.Geoip.GeoipAsnFilename cfg.Geoip.GeoipLicenseKey)
            cfg.RunArguments.DnsServers,
          Event.startCollect cfg.RunArguments.InputFilepath
            cfg.RunArguments.Concurrency cfg.Database.DatabaseName
            cfg.Database.Username cfg.Database.Password cfg.Database.Host
            cfg.Database.Port cfg.RunArguments.Debug cfg.RunArguments.Verbose,
          Event.closeGeoIP
            (w.InitGeoIP cfg.Geoip.GeoipPath cfg.Geoip.GeoipCountryFilename
              cfg.Geoip.GeoipAsnFilename cfg.Geoip.GeoipLicenseKey),
          Event.println "Analyzing Data...",
          Event.analyzeData
            (w.StartCollect cfg.RunArguments.InputFilepath
              cfg.RunArguments.Concurrency cfg.Database.DatabaseName
              cfg.Database.Username cfg.Database.Password cfg.Database.Host
              cfg.Database.Port cfg.RunArguments.Debug cfg.RunArguments.Verbose)
            cfg.Database.DatabaseName cfg.Database.Username cfg.Database.Password
            cfg.Database.Host cfg.Database.Port,
          Event.closeFile f],
        runId :=
          some (w.StartCollect cfg.RunArguments.InputFilepath
            cfg.RunArguments.Concurrency cfg.Database.DatabaseName
            cfg.Database.Username cfg.Database.Password cfg.Database.Host
            cfg.Database.Port cfg.RunArguments.Debug cfg.RunArguments.Verbose) } := by
  simp [main, hopen, hdec, deferClose, mainWithConfig, hdns, hinit]

/-- A collaborator is called only after the configuration was opened and
decoded and lists at least one DNS server. -/
theorem call_needs_config (w : World) (e : Event) (hcall : e.isCall = true)
    (hmem : e ∈ (main w).trace) :
    ∃ f cfg, w.Open CONFIG_FILE = Except.ok f ∧ w.Decode f = Except.ok cfg ∧
      cfg.RunArguments.DnsServers ≠ [] := by
  cases hopen : w.Open CONFIG_FILE with
  | error err =>
    rw [main_open_error w err hopen] at hmem
    simp at hmem
    subst hmem
    simp [Event.isCall] at hcall
  | ok f =>
    cases hdec : w.Decode f with
    | error err =>
      rw [main_decode_error w f err hopen hdec] at hmem
      simp at hmem
      rcases hmem with h | h <;> subst h <;> simp [Event.isCall] at hcall
    | ok cfg =>
      by_cases hdns : cfg.RunArguments.DnsServers = []
      · rw [main_no_dns w f cfg hopen hdec hdns] at hmem
        simp at hmem
        rcases hmem with h | h <;> subst h <;> simp [Event.isCall] at hcall
      · exact ⟨f, cfg, rfl, hdec, hdns⟩

/-- An event after `InitCollect` (a call of `StartCollect`, `CloseGeoIP` or
`AnalyzeData`) happens only when the configuration was opened and decoded,
lists a DNS server, and `InitCollect` returned no error. -/
theorem late_call_needs_success (w : World) (e : Event)
    (hlate : (e.isStartCollect || e.isCloseGeoIP || e.isAnalyzeData) = true)
    (hmem : e ∈ (main w).trace) :
    ∃ f cfg, w.Open CONFIG_FILE = Except.ok f ∧ w.Decode f = Except.ok cfg ∧
      cfg.RunArguments.DnsServers ≠ [] ∧
      w.InitCollect cfg.RunArguments.DontProbeFilepath
        cfg.RunArguments.DropDatabase cfg.Database.Username cfg.Database.Password
        cfg.Database.Host cfg.Database.Port cfg.Database.DatabaseName
        (w.InitGeoIP cfg.Geoip.GeoipPath cfg.Geoip.GeoipCountryFilename
          cfg.Geoip.GeoipAsnFilename cfg.Geoip.GeoipLicenseKey)
        cfg.RunArguments.DnsServers = none := by
  have hcall : e.isCall = true := by
    cases e <;> simp [Event.isCall, Event.isStartCollect, Event.isCloseGeoIP,
      Event.isAnalyzeData] at hlate ⊢
  obtain ⟨f, cfg, hopen, hdec, hdns⟩ := call_needs_config w e hcall hmem
  refine ⟨f, cfg, hopen, hdec, hdns, ?_⟩
  cases hinit : w.InitCollect cfg.RunArguments.DontProbeFilepath
      cfg.RunArguments.DropDatabase cfg.Database.Username cfg.Database.Password
      cfg.Database.Host cfg.Database.Port cfg.Database.DatabaseName
      (w.InitGeoIP cfg.Geoip.GeoipPath cfg.Geoip.GeoipCountryFilename
        cfg.Geoip.GeoipAsnFilename cfg.Geoip.GeoipLicenseKey)
      cfg.RunArguments.DnsServers with
  | none => rfl
  | some err =>
    rw [main_initCollect_error w f cfg err hopen hdec hdns hinit] at hmem
    simp at hmem
    rcases hmem with h | h | h | h <;> subst h <;>
      simp [Event.isStartCollect, Event.isCloseGeoIP, Event.isAnalyzeData] at hlate

/-! ## The claims -/

/-- C1: when the decoded configuration lists no DNS server, `main` returns
without calling any collaborator (no `InitGeoIP`, `InitCollect`, `StartCollect`
or `AnalyzeData`), no run identifier is produced, and the only line printed is
the message asking for at least one DNS server; the trace is that line followed
by the deferred close of the configuration file. -/
theorem empty_dns_server_list_aborts (w : World) (f : File) (cfg : Config)
    (hopen : w.Open CONFIG_FILE = Except.ok f)
    (hdec : w.Decode f = Except.ok cfg)
    (hdns : cfg.RunArguments.DnsServers = []) :
    calls (main w).trace = [] ∧
    (main w).runId = none ∧
    printed (main w).trace =
      ["you must add at least one dns server in the config file."] ∧
    (main w).trace =
      [Event.println "you must add at least one dns server in the config file.",
        Event.closeFile f] := by
  rw [main_no_dns w f cfg hopen hdec hdns]
  simp [calls, printed, Event.isCall, Event.line?]

/-- Witness of C1: the world without DNS servers. -/
theorem empty_dns_server_list_aborts_witness :
    calls (main worldNoDns).trace = [] ∧
    (main worldNoDns).runId = none ∧
    printed (main worldNoDns).trace =
      ["you must add at least one dns server in the config file."] ∧
    (main worldNoDns).trace =
      [Event.println "you must add at least one dns server in the config file.",
        Event.closeFile 3] :=
  empty_dns_server_list_aborts worldNoDns 3 configNoDns rfl rfl rfl

/-- Counterexample to C2: with concurrency 0 in the configuration, `main` prints
no error and calls `StartCollect` with concurrency 0; a run identifier is
produced. -/
theorem concurrency_not_validated_counterexample :
    worldZeroConcurrency.Decode 3 = Except.ok configZeroConcurrency ∧
    configZeroConcurrency.RunArguments.Concurrency < 1 ∧
    Event.startCollect "input.csv" 0 "observatorio" "obs" "secret" "localhost" 5432
      true false ∈ (main worldZeroConcurrency).trace ∧
    printed (main worldZeroConcurrency).trace = ["Analyzing Data..."] ∧
    (main worldZeroConcurrency).runId = some 42 := by
  refine ⟨rfl, by decide, ?_, ?_, ?_⟩
  · rw [main_success worldZeroConcurrency 3 configZeroConcurrency rfl rfl (by decide) rfl]
    simp [configZeroConcurrency, sampleConfig]
  · rw [main_success worldZeroConcurrency 3 configZeroConcurrency rfl rfl (by decide) rfl]
    simp [printed, Event.line?]
  · rw [main_success worldZeroConcurrency 3 configZeroConcurrency rfl rfl (by decide) rfl]
    rfl

/-- C2 (amended): `main` does not validate the concurrency. Whatever its value
(below 1 included), when the configuration loads with a non-empty DNS server
list and `InitCollect` returns no error, `main` calls `StartCollect` exactly
once, with the configured concurrency unchanged, and every call of
`StartCollect` carries that value. -/
theorem concurrency_passed_unchanged (w : World) (f : File) (cfg : Config)
    (hopen : w.Open CONFIG_FILE = Except.ok f)
    (hdec : w.Decode f = Except.ok cfg)
    (hdns : cfg.RunArguments.DnsServers ≠ [])
    (hinit : w.InitCollect cfg.RunArguments.DontProbeFilepath
      cfg.RunArguments.DropDatabase cfg.Database.Username cfg.Database.Password
      cfg.Database.Host cfg.Database.Port cfg.Database.DatabaseName
      (w.InitGeoIP cfg.Geoip.GeoipPath cfg.Geoip.GeoipCountryFilename
        cfg.Geoip.GeoipAsnFilename cfg.Geoip.GeoipLicenseKey)
      cfg.RunArguments.DnsServers = none) :
    (main w).trace.filter Event.isStartCollect =
      [Event.startCollect cfg.RunArguments.InputFilepath
        cfg.RunArguments.Concurrency cfg.Database.DatabaseName
        cfg.Database.Username cfg.Database.Password cfg.Database.Host
        cfg.Database.Port cfg.RunArguments.Debug cfg.RunArguments.Verbose] ∧
    ∀ (inputFilepath : String) (concurrency : Int)
      (databaseName username password host : String) (port : Int)
      (debug verbose : Bool),
      Event.startCollect inputFilepath concurrency databaseName username password
        host port debug verbose ∈ (main w).trace →
      concurrency = cfg.RunArguments.Concurrency := by
  rw [main_success w f cfg hopen hdec hdns hinit]
  constructor
  · simp [List.filter, Event.isStartCollect]
  · intro i c d u p h po de v hmem
    simp at hmem
    exact hmem.2.1

/-- Witness of C2 (amended): the world with concurrency 0. -/
theorem concurrency_passed_unchanged_witness :
    (main worldZeroConcurrency).trace.filter Event.isStartCollect =
      [Event.startCollect "input.csv" 0 "observatorio" "obs" "secret" "localhost" 5432
        true false] ∧
    ∀ (inputFilepath : String) (concurrency : Int)
      (databaseName username password host : String) (port : Int)
      (debug verbose : Bool),
      Event.startCollect inputFilepath concurrency databaseName username password
        host port debug verbose ∈ (main worldZeroConcurrency).trace →
      concurrency = 0 :=
  concurrency_passed_unchanged worldZeroConcurrency 3 configZeroConcurrency rfl rfl
    (by decide) rfl

/-- C3: in every execution in which `InitCollect` is called and returns an
error, `main` aborts before any probing: the trace contains no call of
`StartCollect` and no call of `AnalyzeData`, no run identifier is produced, and
the error is the only line printed. -/
theorem initCollect_error_aborts (w : World) (dontProbeFilepath : String)
    (dropDatabase : Bool) (username password host : String) (port : Int)
    (databaseName : String) (geoipDB : GeoipDB) (dnsServers : List String)
    (err : String)
    (hcall : Event.initCollect dontProbeFilepath dropDatabase username password host
      port databaseName geoipDB dnsServers ∈ (main w).trace)
    (herr : w.InitCollect dontProbeFilepath dropDatabase username password host
      port databaseName geoipDB dnsServers = some err) :
    (∀ e ∈ (main w).trace, e.isStartCollect = false ∧ e.isAnalyzeData = false) ∧
    (main w).runId = none ∧
    printed (main w).trace = [err] := by
  obtain ⟨f, cfg, hopen, hdec, hdns⟩ :=
    call_needs_config w _ (by simp [Event.isCall]) hcall
  cases hinit : w.InitCollect cfg.RunArguments.DontProbeFilepath
      cfg.RunArguments.DropDatabase cfg.Database.Username cfg.Database.Password
      cfg.Database.Host cfg.Database.Port cfg.Database.DatabaseName
      (w.InitGeoIP cfg.Geoip.GeoipPath cfg.Geoip.GeoipCountryFilename
        cfg.Geoip.GeoipAsnFilename cfg.Geoip.GeoipLicenseKey)
      cfg.RunArguments.DnsServers with
  | none =>
    rw [main_success w f cfg hopen hdec hdns hinit] at hcall
    simp at hcall
    obtain ⟨h1, h2, h3, h4, h5, h6, h7, h8, h9⟩ := hcall
    subst h1 h2 h3 h4 h5 h6 h7 h8 h9
    rw [hinit] at herr
    cases herr
  | some err2 =>
    have hcall2 := hcall
    rw [main_initCollect_error w f cfg err2 hopen hdec hdns hinit] at hcall2
    simp at hcall2
    obtain ⟨h1, h2, h3, h4, h5, h6, h7, h8, h9⟩ := hcall2
    subst h1 h2 h3 h4 h5 h6 h7 h8 h9
    rw [hinit] at herr
    cases herr
    rw [main_initCollect_error w f cfg err hopen hdec hdns hinit]
    simp [printed, Event.line?, Event.isStartCollect, Event.isAnalyzeData]

/-- Witness of C3: the world in which `InitCollect` fails. -/
theorem initCollect_error_aborts_witness :
    (∀ e ∈ (main worldInitCollectFails).trace,
      e.isStartCollect = false ∧ e.isAnalyzeData = false) ∧
    (main worldInitCollectFails).runId = none ∧
    printed (main worldInitCollectFails).trace =
      ["open dontprobe.txt: permission denied"] :=
  initCollect_error_aborts worldInitCollectFails "dontprobe.txt" false "obs" "secret"
    "localhost" 5432 "observatorio" 1 ["8.8.8.8", "1.1.1.1"]
    "open dontprobe.txt: permission denied"
    (by
      rw [main_initCollect_error worldInitCollectFails 3 sampleConfig
        "open dontprobe.txt: permission denied" rfl rfl (by decide) rfl]
      simp [sampleConfig, worldInitCollectFails, sampleWorld])
    rfl

/-- C4: when the configuration file cannot be opened, or opens but cannot be
decoded, `main` prints exactly one failure message and returns without calling
any collaborator (`InitGeoIP`, `InitCollect`, `StartCollect`, `CloseGeoIP`,
`AnalyzeData`); no run identifier is created. -/
theorem config_load_failure_aborts (w : World) :
    (∀ err, w.Open CONFIG_FILE = Except.error err →
      printed (main w).trace = ["Can't open configuration file: " ++ err] ∧
      calls (main w).trace = [] ∧ (main w).runId = none) ∧
    (∀ f err, w.Open CONFIG_FILE = Except.ok f → w.Decode f = Except.error err →
      printed (main w).trace = ["Can't decode configuration: " ++ err] ∧
      calls (main w).trace = [] ∧ (main w).runId = none) := by
  constructor
  · intro err hopen
    rw [main_open_error w err hopen]
    simp [calls, printed, Event.isCall, Event.line?]
  · intro f err hopen hdec
    rw [main_decode_error w f err hopen hdec]
    simp [calls, printed, Event.isCall, Event.line?]

/-- Witness of C4: a world without configuration file and a world whose
configuration file is not valid YAML. -/
theorem config_load_failure_aborts_witness :
    (printed (main worldNoFile).trace =
        ["Can't open configuration file: " ++
          "open config.yml: no such file or directory"] ∧
      calls (main worldNoFile).trace = [] ∧ (main worldNoFile).runId = none) ∧
    (printed (main worldBadYaml).trace =
        ["Can't decode configuration: " ++
          "yaml: line 1: did not find expected key"] ∧
      calls (main worldBadYaml).trace = [] ∧ (main worldBadYaml).runId = none) :=
  ⟨(config_load_failure_aborts worldNoFile).1 _ rfl,
    (config_load_failure_aborts worldBadYaml).2 3 _ rfl rfl⟩

/-- C5: in every execution that reaches `StartCollect`, `AnalyzeData` is called
exactly once, after the call of `StartCollect`, with the run identifier that
`StartCollect` returned and with the database name, user, password, host and
port of the decoded configuration, which are also the ones `StartCollect` was
given. -/
theorem analyzeData_once_after_startCollect (w : World) (inputFilepath : String)
    (concurrency : Int) (databaseName username password host : String) (port : Int)
    (debug verbose : Bool)
    (hreach : Event.startCollect inputFilepath concurrency databaseName username
      password host port debug verbose ∈ (main w).trace) :
    ∃ f cfg pre mid post,
      w.Open CONFIG_FILE = Except.ok f ∧ w.Decode f = Except.ok cfg ∧
      databaseName = cfg.Database.DatabaseName ∧
      username = cfg.Database.Username ∧
      password = cfg.Database.Password ∧
      host = cfg.Database.Host ∧
      port = cfg.Database.Port ∧
      (main w).trace =
        pre ++ Event.startCollect inputFilepath concurrency databaseName username
            password host port debug verbose ::
          mid ++ Event.analyzeData
            (w.StartCollect inputFilepath concurrency databaseName username password
              host port debug verbose)
            databaseName username password host port :: post ∧
      (∀ e ∈ pre ++ mid ++ post, e.isAnalyzeData = false) ∧
      (main w).trace.countP Event.isAnalyzeData = 1 ∧
      (main w).runId =
        some (w.StartCollect inputFilepath concurrency databaseName username password
          host port debug verbose) := by
  obtain ⟨f, cfg, hopen, hdec, hdns, hinit⟩ :=
    late_call_needs_success w _ (by simp [Event.isStartCollect]) hreach
  have htrace := main_success w f cfg hopen hdec hdns hinit
  rw [htrace] at hreach
  simp at hreach
  obtain ⟨h1, h2, h3, h4, h5, h6, h7, h8, h9⟩ := hreach
  subst h1 h2 h3 h4 h5 h6 h7 h8 h9
  refine ⟨f, cfg,
    [Event.initGeoIP cfg.Geoip.GeoipPath cfg.Geoip.GeoipCountryFilename
        cfg.Geoip.GeoipAsnFilename cfg.Geoip.GeoipLicenseKey,
      Event.initCollect cfg.RunArguments.DontProbeFilepath
        cfg.RunArguments.DropDatabase cfg.Database.Username cfg.Database.Password
        cfg.Database.Host cfg.Database.Port cfg.Database.DatabaseName
        (w.InitGeoIP cfg.Geoip.GeoipPath cfg.Geoip.GeoipCountryFilename
          cfg.Geoip.GeoipAsnFilename cfg.Geoip.GeoipLicenseKey)
        cfg.RunArguments.DnsServers],
    [Event.closeGeoIP
        (w.InitGeoIP cfg.Geoip.GeoipPath cfg.Geoip.GeoipCountryFilename
          cfg.Geoip.GeoipAsnFilename cfg.Geoip.GeoipLicenseKey),
      Event.println "Analyzing Data..."],
    [Event.closeFile f], hopen, hdec, rfl, rfl, rfl, rfl, rfl, ?_, ?_, ?_, ?_⟩
  · rw [htrace]; rfl
  · simp [Event.isAnalyzeData]
  · rw [htrace]; simp [List.countP_cons, Event.isAnalyzeData]
  · rw [htrace]

/-- Witness of C5: the world in which everything succeeds; `AnalyzeData`
receives run identifier 42. -/
theorem analyzeData_once_after_startCollect_witness :
    ∃ f cfg pre mid post,
      sampleWorld.Open CONFIG_FILE = Except.ok f ∧
      sampleWorld.Decode f = Except.ok cfg ∧
      "observatorio" = cfg.Database.DatabaseName ∧
      "obs" = cfg.Database.Username ∧
      "secret" = cfg.Database.Password ∧
      "localhost" = cfg.Database.Host ∧
      (5432 : Int) = cfg.Database.Port ∧
      (main sampleWorld).trace =
        pre ++ Event.startCollect "input.csv" 2 "observatorio" "obs" "secret"
            "localhost" 5432 true false ::
          mid ++ Event.analyzeData
            (sampleWorld.StartCollect "input.csv" 2 "observatorio" "obs" "secret"
              "localhost" 5432 true false)
            "observatorio" "obs" "secret" "localhost" 5432 :: post ∧
      (∀ e ∈ pre ++ mid ++ post, e.isAnalyzeData = false) ∧
      (main sampleWorld).trace.countP Event.isAnalyzeData = 1 ∧
      (main sampleWorld).runId =
        some (sampleWorld.StartCollect "input.csv" 2 "observatorio" "obs" "secret"
          "localhost" 5432 true false) :=
  analyzeData_once_after_startCollect sampleWorld "input.csv" 2 "observatorio" "obs"
    "secret" "localhost" 5432 true false
    (by
      rw [main_success sampleWorld 3 sampleConfig rfl rfl (by decide) rfl]
      simp [sampleConfig])

/-- C6: when the configuration loads, the DNS server list is non-empty and
`InitCollect` returns no error, the collaborator calls of `main` are exactly
`InitGeoIP`, `InitCollect`, `StartCollect`, `CloseGeoIP`, `AnalyzeData`, each
once and in that order, with the arguments of the source. -/
theorem collaborator_call_sequence (w : World) (f : File) (cfg : Config)
    (hopen : w.Open CONFIG_FILE = Except.ok f)
    (hdec : w.Decode f = Except.ok cfg)
    (hdns : cfg.RunArguments.DnsServers ≠ [])
    (hinit : w.InitCollect cfg.RunArguments.DontProbeFilepath
      cfg.RunArguments.DropDatabase cfg.Database.Username cfg.Database.Password
      cfg.Database.Host cfg.Database.Port cfg.Database.DatabaseName
      (w.InitGeoIP cfg.Geoip.GeoipPath cfg.Geoip.GeoipCountryFilename
        cfg.Geoip.GeoipAsnFilename cfg.Geoip.GeoipLicenseKey)
      cfg.RunArguments.DnsServers = none) :
    (main w).trace.filterMap Event.collaborator? =
      [Collaborator.InitGeoIP, Collaborator.InitCollect, Collaborator.StartCollect,
        Collaborator.CloseGeoIP, Collaborator.AnalyzeData] ∧
    calls (main w).trace =
      [Event.initGeoIP cfg.Geoip.GeoipPath cfg.Geoip.GeoipCountryFilename
          cfg.Geoip.GeoipAsnFilename cfg.Geoip.GeoipLicenseKey,
        Event.initCollect cfg.RunArguments.DontProbeFilepath
          cfg.RunArguments.DropDatabase cfg.Database.Username cfg.Database.Password
          cfg.Database.Host cfg.Database.Port cfg.Database.DatabaseName
          (w.InitGeoIP cfg.Geoip.GeoipPath cfg.Geoip.GeoipCountryFilename
            cfg.Geoip.GeoipAsnFilename cfg.Geoip.GeoipLicenseKey)
          cfg.RunArguments.DnsServers,
        Event.startCollect cfg.RunArguments.InputFilepath
          cfg.RunArguments.Concurrency cfg.Database.DatabaseName
          cfg.Database.Username cfg.Database.Password cfg.Database.Host
          cfg.Database.Port cfg.RunArguments.Debug cfg.RunArguments.Verbose,
        Event.closeGeoIP
          (w.InitGeoIP cfg.Geoip.GeoipPath cfg.Geoip.GeoipCountryFilename
            cfg.Geoip.GeoipAsnFilename cfg.Geoip.GeoipLicenseKey),
        Event.analyzeData
          (w.StartCollect cfg.RunArguments.InputFilepath
            cfg.RunArguments.Concurrency cfg.Database.DatabaseName
            cfg.Database.Username cfg.Database.Password cfg.Database.Host
            cfg.Database.Port cfg.RunArguments.Debug cfg.RunArguments.Verbose)
          cfg.Database.DatabaseName cfg.Database.Username cfg.Database.Password
          cfg.Database.Host cfg.Database.Port] := by
  rw [main_success w f cfg hopen hdec hdns hinit]
  simp [calls, List.filter, Event.isCall, Event.collaborator?]

/-- Witness of C6: the world in which everything succeeds. -/
theorem collaborator_call_sequence_witness :
    (main sampleWorld).trace.filterMap Event.collaborator? =
      [Collaborator.InitGeoIP, Collaborator.InitCollect, Collaborator.StartCollect,
        Collaborator.CloseGeoIP, Collaborator.AnalyzeData] ∧
    calls (main sampleWorld).trace =
      [Event.initGeoIP "Geolite" "GeoLite2-Country.mmdb" "GeoLite2-ASN.mmdb" "key",
        Event.initCollect "dontprobe.txt" false "obs" "secret" "localhost" 5432
          "observatorio" 1 ["8.8.8.8", "1.1.1.1"],
        Event.startCollect "input.csv" 2 "observatorio" "obs" "secret" "localhost"
          5432 true false,
        Event.closeGeoIP 1,
        Event.analyzeData 42 "observatorio" "obs" "secret" "localhost" 5432] :=
  collaborator_call_sequence sampleWorld 3 sampleConfig rfl rfl (by decide) rfl

/-- C8: for every run and every target present in the exclusion list loaded
from the configured path, no `ProbeResult` of the run references that target.
The results stored for the run are any selection of the produced results, in
any order. -/
theorem excluded_target_has_no_result (readFile : String → Option (List String))
    (optional : Bool) (dontProbeFilepath : String) (excluded : List String)
    (wellFormed : String → Bool) (lines : List String)
    (query : String → String → Outcome) (runId : RunId) (servers : List String)
    (produced stored : List ProbeResult) (target : String)
    (hload : ExclusionFilter.load readFile optional dontProbeFilepath =
      Except.ok excluded)
    (hexcl : target ∈ excluded)
    (hrun : collectRun readFile optional dontProbeFilepath wellFormed lines query
      runId servers = Except.ok produced)
    (hstored : stored.Subperm produced) :
    ∀ r ∈ stored, r.target ≠ target := by
  have hex : ExclusionFilter.isExcluded excluded target = true := by
    simp [ExclusionFilter.isExcluded, hexcl]
  intro r hr heq
  have hprod := hstored.subset hr
  simp only [collectRun, hload, Except.ok.injEq] at hrun
  subst hrun
  simp only [producedResults, List.mem_flatMap, ProbeWorker.probe, List.mem_map,
    TargetSource.targets, List.mem_filter] at hprod
  obtain ⟨t, ⟨_, hkeep⟩, s, _, hrs⟩ := hprod
  have ht : t = target := by rw [← heq, ← hrs]
  subst ht
  simp [hex] at hkeep

/-- Witness of C8: the exclusion list holds `a.example`, the input list is
`a.example`, `b.example`; the run produces the two results of `b.example`, and
neither stored result references `a.example`. -/
theorem excluded_target_has_no_result_witness :
    collectRun sampleReadFile false "dontprobe.txt" (fun _ => true)
        ["a.example", "b.example"] sampleQuery 42 ["8.8.8.8", "1.1.1.1"] =
      Except.ok
        [{ runId := 42, target := "b.example", server := "8.8.8.8",
            outcome := Outcome.resolved ["192.0.2.1"] },
          { runId := 42, target := "b.example", server := "1.1.1.1",
            outcome := Outcome.resolved ["192.0.2.1"] }] ∧
    ({ runId := 42, target := "b.example", server := "1.1.1.1",
        outcome := Outcome.resolved ["192.0.2.1"] } : ProbeResult).target ≠
      "a.example" :=
  ⟨rfl,
    excluded_target_has_no_result sampleReadFile false "dontprobe.txt" ["a.example"]
      (fun _ => true) ["a.example", "b.example"] sampleQuery 42
      ["8.8.8.8", "1.1.1.1"]
      [{ runId := 42, target := "b.example", server := "8.8.8.8",
          outcome := Outcome.resolved ["192.0.2.1"] },
        { runId := 42, target := "b.example", server := "1.1.1.1",
          outcome := Outcome.resolved ["192.0.2.1"] }]
      [{ runId := 42, target := "b.example", server := "1.1.1.1",
          outcome := Outcome.resolved ["192.0.2.1"] }]
      "a.example" rfl (by simp) rfl
      (List.Sublist.subperm (by simp))
      _ (by simp)⟩

/-- C9: whenever `main` calls `InitCollect`, the DNS server list it passes is
non-empty and is the list of the decoded configuration, and the exclusion-list
path and the drop-database flag it passes are the values of the configuration;
and whenever `main` calls `StartCollect`, the decoded configuration lists at
least one DNS server. -/
theorem initCollect_arguments (w : World) :
    (∀ (dontProbeFilepath : String) (dropDatabase : Bool)
        (username password host : String) (port : Int) (databaseName : String)
        (geoipDB : GeoipDB) (dnsServers : List String),
      Event.initCollect dontProbeFilepath dropDatabase username password host port
        databaseName geoipDB dnsServers ∈ (main w).trace →
      ∃ f cfg, w.Open CONFIG_FILE = Except.ok f ∧ w.Decode f = Except.ok cfg ∧
        dnsServers ≠ [] ∧
        dnsServers = cfg.RunArguments.DnsServers ∧
        dontProbeFilepath = cfg.RunArguments.DontProbeFilepath ∧
        dropDatabase = cfg.RunArguments.DropDatabase) ∧
    (∀ e ∈ (main w).trace, e.isStartCollect = true →
      ∃ f cfg, w.Open CONFIG_FILE = Except.ok f ∧ w.Decode f = Except.ok cfg ∧
        1 ≤ cfg.RunArguments.DnsServers.length) := by
  constructor
  · intro p d u pw h po db g dns hcall
    obtain ⟨f, cfg, hopen, hdec, hdns⟩ :=
      call_needs_config w _ (by simp [Event.isCall]) hcall
    refine ⟨f, cfg, hopen, hdec, ?_⟩
    cases hinit : w.InitCollect cfg.RunArguments.DontProbeFilepath
        cfg.RunArguments.DropDatabase cfg.Database.Username cfg.Database.Password
        cfg.Database.Host cfg.Database.Port cfg.Database.DatabaseName
        (w.InitGeoIP cfg.Geoip.GeoipPath cfg.Geoip.GeoipCountryFilename
          cfg.Geoip.GeoipAsnFilename cfg.Geoip.GeoipLicenseKey)
        cfg.RunArguments.DnsServers with
    | none =>
      rw [main_success w f cfg hopen hdec hdns hinit] at hcall
      simp at hcall
      obtain ⟨h1, h2, -, -, -, -, -, -, h9⟩ := hcall
      subst h1 h2 h9
      exact ⟨hdns, rfl, rfl, rfl⟩
    | some err =>
      rw [main_initCollect_error w f cfg err hopen hdec hdns hinit] at hcall
      simp at hcall
      obtain ⟨h1, h2, -, -, -, -, -, -, h9⟩ := hcall
      subst h1 h2 h9
      exact ⟨hdns, rfl, rfl, rfl⟩
  · intro e hmem hstart
    obtain ⟨f, cfg, hopen, hdec, hdns⟩ :=
      call_needs_config w e
        (by cases e <;> simp [Event.isCall, Event.isStartCollect] at hstart ⊢) hmem
    exact ⟨f, cfg, hopen, hdec, List.length_pos.mpr hdns⟩

/-- Witness of C9: the world in which everything succeeds; `InitCollect`
receives the two configured servers. -/
theorem initCollect_arguments_witness :
    (∃ f cfg, sampleWorld.Open CONFIG_FILE = Except.ok f ∧
        sampleWorld.Decode f = Except.ok cfg ∧
        ["8.8.8.8", "1.1.1.1"] ≠ [] ∧
        ["8.8.8.8", "1.1.1.1"] = cfg.RunArguments.DnsServers ∧
        "dontprobe.txt" = cfg.RunArguments.DontProbeFilepath ∧
        false = cfg.RunArguments.DropDatabase) ∧
    (∃ f cfg, sampleWorld.Open CONFIG_FILE = Except.ok f ∧
        sampleWorld.Decode f = Except.ok cfg ∧
        1 ≤ cfg.RunArguments.DnsServers.length) :=
  ⟨(initCollect_arguments sampleWorld).1 "dontprobe.txt" false "obs" "secret"
      "localhost" 5432 "observatorio" 1 ["8.8.8.8", "1.1.1.1"]
      (by
        rw [main_success sampleWorld 3 sampleConfig rfl rfl (by decide) rfl]
        simp [sampleConfig, sampleWorld]),
    (initCollect_arguments sampleWorld).2
      (Event.startCollect "input.csv" 2 "observatorio" "obs" "secret" "localhost"
        5432 true false)
      (by
        rw [main_success sampleWorld 3 sampleConfig rfl rfl (by decide) rfl]
        simp [sampleConfig])
      rfl⟩

/-- C10: on the successful path the GeoIP handle returned by `InitGeoIP` is
closed exactly once, after the call of `StartCollect` and before the call of
`AnalyzeData`; when `InitCollect` returns an error, `InitGeoIP` has been called
but the trace contains no call of `CloseGeoIP`: the handle stays open. -/
theorem geoip_handle_closing (w : World) (f : File) (cfg : Config)
    (hopen : w.Open CONFIG_FILE = Except.ok f)
    (hdec : w.Decode f = Except.ok cfg)
    (hdns : cfg.RunArguments.DnsServers ≠ []) :
    (w.InitCollect cfg.RunArguments.DontProbeFilepath
        cfg.RunArguments.DropDatabase cfg.Database.Username cfg.Database.Password
        cfg.Database.Host cfg.Database.Port cfg.Database.DatabaseName
        (w.InitGeoIP cfg.Geoip.GeoipPath cfg.Geoip.GeoipCountryFilename
          cfg.Geoip.GeoipAsnFilename cfg.Geoip.GeoipLicenseKey)
        cfg.RunArguments.DnsServers = none →
      (main w).trace.countP Event.isCloseGeoIP = 1 ∧
      ∃ pre mid post rest startCollectCall analyzeDataCall,
        startCollectCall.isStartCollect = true ∧
        analyzeDataCall.isAnalyzeData = true ∧
        (main w).trace =
          pre ++ startCollectCall :: mid ++
            Event.closeGeoIP
              (w.InitGeoIP cfg.Geoip.GeoipPath cfg.Geoip.GeoipCountryFilename
                cfg.Geoip.GeoipAsnFilename cfg.Geoip.GeoipLicenseKey) ::
            post ++ analyzeDataCall :: rest ∧
        ∀ e ∈ pre ++ mid ++ post ++ rest,
          e.isStartCollect = false ∧ e.isCloseGeoIP = false ∧
            e.isAnalyzeData = false) ∧
    (∀ err, w.InitCollect cfg.RunArguments.DontProbeFilepath
        cfg.RunArguments.DropDatabase cfg.Database.Username cfg.Database.Password
        cfg.Database.Host cfg.Database.Port cfg.Database.DatabaseName
        (w.InitGeoIP cfg.Geoip.GeoipPath cfg.Geoip.GeoipCountryFilename
          cfg.Geoip.GeoipAsnFilename cfg.Geoip.GeoipLicenseKey)
        cfg.RunArguments.DnsServers = some err →
      Event.initGeoIP cfg.Geoip.GeoipPath cfg.Geoip.GeoipCountryFilename
        cfg.Geoip.GeoipAsnFilename cfg.Geoip.GeoipLicenseKey ∈ (main w).trace ∧
      (main w).trace.countP Event.isCloseGeoIP = 0 ∧
      ∀ e ∈ (main w).trace, e.isCloseGeoIP = false) := by
  constructor
  · intro hinit
    have htrace := main_success w f cfg hopen hdec hdns hinit
    constructor
    · rw [htrace]; simp [List.countP_cons, Event.isCloseGeoIP]
    · refine ⟨[Event.initGeoIP cfg.Geoip.GeoipPath cfg.Geoip.GeoipCountryFilename
            cfg.Geoip.GeoipAsnFilename cfg.Geoip.GeoipLicenseKey,
          Event.initCollect cfg.RunArguments.DontProbeFilepath
            cfg.RunArguments.DropDatabase cfg.Database.Username cfg.Database.Password
            cfg.Database.Host cfg.Database.Port cfg.Database.DatabaseName
            (w.InitGeoIP cfg.Geoip.GeoipPath cfg.Geoip.GeoipCountryFilename
              cfg.Geoip.GeoipAsnFilename cfg.Geoip.GeoipLicenseKey)
            cfg.RunArguments.DnsServers],
        [], [Event.println "Analyzing Data..."], [Event.closeFile f],
        Event.startCollect cfg.RunArguments.InputFilepath
          cfg.RunArguments.Concurrency cfg.Database.DatabaseName
          cfg.Database.Username cfg.Database.Password cfg.Database.Host
          cfg.Database.Port cfg.RunArguments.Debug cfg.RunArguments.Verbose,
        Event.analyzeData
          (w.StartCollect cfg.RunArguments.InputFilepath
            cfg.RunArguments.Concurrency cfg.Database.DatabaseName
            cfg.Database.Username cfg.Database.Password cfg.Database.Host
            cfg.Database.Port cfg.RunArguments.Debug cfg.RunArguments.Verbose)
          cfg.Database.DatabaseName cfg.Database.Username cfg.Database.Password
          cfg.Database.Host cfg.Database.Port,
        rfl, rfl, ?_, ?_⟩
      · rw [htrace]; rfl
      · simp [Event.isStartCollect, Event.isCloseGeoIP, Event.isAnalyzeData]
  · intro err hinit
    rw [main_initCollect_error w f cfg err hopen hdec hdns hinit]
    simp [List.countP_cons, Event.isCloseGeoIP]

/-- Witness of C10: the world in which everything succeeds closes handle 1
once; the world in which `InitCollect` fails never closes it. -/
theorem geoip_handle_closing_witness :
    (main sampleWorld).trace.countP Event.isCloseGeoIP = 1 ∧
    Event.initGeoIP "Geolite" "GeoLite2-Country.mmdb" "GeoLite2-ASN.mmdb" "key" ∈
      (main worldInitCollectFails).trace ∧
    (main worldInitCollectFails).trace.countP Event.isCloseGeoIP = 0 :=
  ⟨((geoip_handle_closing sampleWorld 3 sampleConfig rfl rfl (by decide)).1 rfl).1,
    ((geoip_handle_closing worldInitCollectFails 3 sampleConfig rfl rfl
      (by decide)).2 "open dontprobe.txt: permission denied" rfl).1,
    ((geoip_handle_closing worldInitCollectFails 3 sampleConfig rfl rfl
      (by decide)).2 "open dontprobe.txt: permission denied" rfl).2.1⟩

end DnsWatcher
